import Mathlib

/-!
Shallow embedding of `cmd/time_check.go` from jeid64/dcos-checks:
the clock-synchronization probe (`TimeCheck.Run`) and the pieces of the
Go standard library it relies on (`time.Duration` formatting,
`pkg/errors.Wrap` message chaining, signed 64-bit wrap-around
arithmetic).
-/

namespace DcosChecks

/-- Two's-complement wrap of an integer into the signed 64-bit range,
the semantics of Go `int64` arithmetic. -/
def toInt64 (n : Int) : Int := (n + 2 ^ 63) % 2 ^ 64 - 2 ^ 63

/-- Two's-complement wrap into the signed 32-bit range (Go `int32`). -/
def toInt32 (n : Int) : Int := (n + 2 ^ 31) % 2 ^ 32 - 2 ^ 31

/-- Bitwise AND of two Go `int32` values: performed on the 32-bit
two's-complement bit patterns, result read back as `int32`. -/
def int32land (a b : Int) : Int :=
  toInt32 (Nat.land (a % 2 ^ 32).toNat (b % 2 ^ 32).toNat)

/-- Go `syscall.Timeval` (linux/amd64). -/
structure Timeval where
  Sec : Int
  Usec : Int
deriving DecidableEq

/-- Go `syscall.Timex` (linux/amd64): the buffer filled by the
`adjtimex` system call. `Esterror` is `int64`, `Status` and `Tai` are
`int32`, `Modes` is `uint32`; all are modelled as mathematical integers,
with range side conditions imposed where theorems need them. -/
structure Timex where
  Modes : Int
  Offset : Int
  Freq : Int
  Maxerror : Int
  Esterror : Int
  Status : Int
  Constant : Int
  Precision : Int
  Tolerance : Int
  Time : Timeval
  Tick : Int
  Ppsfreq : Int
  Jitter : Int
  Shift : Int
  Stabil : Int
  Jitcnt : Int
  Calcnt : Int
  Errcnt : Int
  Stbcnt : Int
  Tai : Int
deriving DecidableEq

/-- The zero value `syscall.Timex{}` that `Run` allocates as `tBuf`. -/
def zeroTimex : Timex :=
  { Modes := 0, Offset := 0, Freq := 0, Maxerror := 0, Esterror := 0
    Status := 0, Constant := 0, Precision := 0, Tolerance := 0
    Time := { Sec := 0, Usec := 0 }, Tick := 0, Ppsfreq := 0, Jitter := 0
    Shift := 0, Stabil := 0, Jitcnt := 0, Calcnt := 0, Errcnt := 0
    Stbcnt := 0, Tai := 0 }

/-- `staUnsync = 0x0040`, the kernel STA_UNSYNC flag (time_check.go). -/
def staUnsync : Int := 0x0040

/-- Go `time.Microsecond`: a `time.Duration` of 1000 nanoseconds. -/
def timeMicrosecond : Int := 1000

/-- `maxEstErrorUs = int64(time.Microsecond * 100000)` (time_check.go).
The in-code comment above this constant reads `// 100 millisecond`. -/
def maxEstErrorUs : Int := toInt64 (timeMicrosecond * 100000)

/-! Go `time.Duration.String` and its helpers `fmtFrac` and `fmtInt`,
translated from the Go standard library sources. The Go code fills a
byte buffer right to left; here the same characters are prepended to an
accumulator list, least significant first, giving the identical string. -/

/-- Go `fmtFrac(buf, v, prec)`: formats the `prec` least-significant
decimal digits of `v` as a fraction `.ddd`, omitting trailing zeros and,
when all digits are zero, the decimal point as well. Returns the
characters prepended to `acc` together with `v` shifted right by `prec`
decimal digits. `print` carries Go's flag that a nonzero digit has been
seen. -/
def fmtFrac : Nat → Nat → Bool → List Char → List Char × Nat
  | v, 0, print, acc => (if print then '.' :: acc else acc, v)
  | v, prec + 1, print, acc =>
    let digit := v % 10
    let p := print || decide (digit ≠ 0)
    fmtFrac (v / 10) prec p (if p then Char.ofNat (48 + digit) :: acc else acc)

/-- Go `fmtInt(buf, v)`: the decimal digits of `v` (just `"0"` for zero),
prepended to `acc`. -/
def fmtInt (v : Nat) (acc : List Char) : List Char :=
  Nat.toDigits 10 v ++ acc

/-- Go `time.Duration.String` on a duration of `d` nanoseconds
(`d` a signed 64-bit value). Sub-second durations use ns/µs/ms units
with fractional parts; larger ones use `h`/`m`/`s`. -/
def goDurationString (d : Int) : String :=
  let u : Nat := d.natAbs
  let neg : Bool := decide (d < 0)
  let chars : List Char :=
    if u < 1000000000 then
      if u = 0 then ['0', 's']
      else
        let unitPrec : List Char × Nat :=
          if u < 1000 then (['n', 's'], 0)
          else if u < 1000000 then (['µ', 's'], 3)
          else (['m', 's'], 6)
        let fr := fmtFrac u unitPrec.2 false unitPrec.1
        fmtInt fr.2 fr.1
    else
      let fr := fmtFrac u 9 false ['s']
      let acc := fmtInt (fr.2 % 60) fr.1
      let u2 := fr.2 / 60
      if u2 > 0 then
        let acc2 := fmtInt (u2 % 60) ('m' :: acc)
        let u3 := u2 / 60
        if u3 > 0 then fmtInt u3 ('h' :: acc2) else acc2
      else acc
  if neg then String.mk ('-' :: chars) else String.mk chars

/-- `pkg/errors.Wrap(err, message)`: the resulting error's text is
`message ++ ": " ++ err.Error()`. -/
def errorsWrap (errText msg : String) : String := msg ++ ": " ++ errText

/-- The wrap message used by `Run` when the `adjtimex` call fails. -/
def adjtimexErrLabel : String := "unable to make a system call adjtimex"

/-- Modelled from the spec: the tri-state verdict levels. The integer
constants `statusOK`, `statusFailure`, `statusUnknown` are declared
elsewhere in the repository (outside this core); the spec fixes them as
three mutually exclusive symbolic outcomes (`OK`, `Failure`,
`Unknown`), modelled here as a three-valued type. -/
inductive Verdict where
  | statusOK
  | statusFailure
  | statusUnknown
deriving DecidableEq

/-- The message of the magnitude-failure branch of `Run`:
`fmt.Sprintf("Clock is less stable than allowed. Max estimated error
exceeded by: %s", time.Duration(diff)*time.Microsecond)`. The
multiplication by `time.Microsecond` is Go `int64` arithmetic and wraps. -/
def magnitudeMsg (diff : Int) : String :=
  "Clock is less stable than allowed. Max estimated error exceeded by: " ++
    goDurationString (toInt64 (diff * timeMicrosecond))

/-- The fixed message of the unsync-flag branch of `Run`. -/
def unsyncMsg : String :=
  "Clock is out of sync / in unsync state. Must be synchronized for proper operation."

/-- `TimeCheck`: the check structure. `runAdjtimex` is the injected
acquisition function `func(*syscall.Timex) (int, error)`: it receives
the buffer and mutates it, modelled as state passing — it takes the
buffer and returns the filled buffer, the `int` return value and the
error (`none` for `nil`, `some text` for an error whose `Error()` is
`text`). -/
structure TimeCheck where
  Name : String
  runAdjtimex : Timex → Timex × Int × Option String

/-- `(t *TimeCheck) ID()` (time_check.go). -/
def TimeCheck.ID (t : TimeCheck) : String := t.Name

/-- `(t *TimeCheck) Run(ctx, cfg)` (time_check.go). The `ctx` and `cfg`
parameters (`context.Context`, `*CLIConfigFlags`) are never inspected,
so they appear with arbitrary types. Returns `(message, verdict, error)`. -/
def TimeCheck.Run {α β : Type} (t : TimeCheck) (ctx : α) (cfg : β) :
    String × Verdict × Option String :=
  let r := t.runAdjtimex zeroTimex
  let tBuf := r.1
  match r.2.2 with
  | some e =>
    ("", Verdict.statusUnknown, some (errorsWrap e adjtimexErrLabel))
  | none =>
    let diff := toInt64 (tBuf.Esterror - maxEstErrorUs)
    if diff > 0 then
      (magnitudeMsg diff, Verdict.statusFailure, none)
    else if int32land tBuf.Status staUnsync > 0 then
      (unsyncMsg, Verdict.statusFailure, none)
    else
      ("Clock is synced", Verdict.statusOK, none)

/-! Helper lemmas shared by the claim theorems. -/

/-- Wrapping is the identity on values already in signed 64-bit range. -/
lemma toInt64_eq_self {n : Int} (h1 : -(2 ^ 63) ≤ n) (h2 : n < 2 ^ 63) :
    toInt64 n = n := by
  unfold toInt64
  omega

/-- The value of the threshold constant: 100,000,000 (`time.Microsecond`
is 1000 nanoseconds, so `int64(time.Microsecond * 100000)` is the
nanosecond count of the 100 ms duration, not its microsecond count). -/
lemma maxEstErrorUs_val : maxEstErrorUs = 100000000 := by decide

/-- `Run` on a failing acquisition. -/
lemma run_err {α β : Type} (t : TimeCheck) (ctx : α) (cfg : β) (e : String)
    (h : (t.runAdjtimex zeroTimex).2.2 = some e) :
    t.Run ctx cfg = ("", Verdict.statusUnknown, some (errorsWrap e adjtimexErrLabel)) := by
  simp only [TimeCheck.Run, h]

/-- `Run` on a successful acquisition reduces to the two-branch check on
the filled buffer. -/
lemma run_none {α β : Type} (t : TimeCheck) (ctx : α) (cfg : β)
    (h : (t.runAdjtimex zeroTimex).2.2 = none) :
    t.Run ctx cfg =
      (if toInt64 ((t.runAdjtimex zeroTimex).1.Esterror - maxEstErrorUs) > 0 then
        (magnitudeMsg (toInt64 ((t.runAdjtimex zeroTimex).1.Esterror - maxEstErrorUs)),
          Verdict.statusFailure, none)
      else if int32land (t.runAdjtimex zeroTimex).1.Status staUnsync > 0 then
        (unsyncMsg, Verdict.statusFailure, none)
      else
        ("Clock is synced", Verdict.statusOK, none)) := by
  simp only [TimeCheck.Run, h]

/-- The magnitude-failure message is never the unsync message: the two
differ already at their tenth character. -/
lemma magnitudeMsg_ne_unsyncMsg (d : Int) : magnitudeMsg d ≠ unsyncMsg := by
  intro h
  have h9 := congrArg (fun s => s.data[9]?) h
  simp only [magnitudeMsg, unsyncMsg] at h9
  rw [String.data_append, List.getElem?_append_left (by decide)] at h9
  exact absurd h9 (by decide)

/-! Claim theorems. -/

/-- Claim C1: the claim states that `maxEstErrorUs` equals 100,000
microseconds (100 ms). In the code, `maxEstErrorUs = int64(time.Microsecond
* 100000)` evaluates to 100,000,000 — the nanosecond count of a 100 ms
`time.Duration` — even though the constant is named in microseconds,
commented `// 100 millisecond`, and compared against the microsecond-valued
`Esterror` field. The constant is 1000 times the documented threshold. -/
theorem claim1_threshold_value :
    maxEstErrorUs = 100000000 ∧ maxEstErrorUs ≠ 100000 := by
  decide

/-- Claim C2: whenever acquisition succeeds and the filled buffer's
`Esterror` strictly exceeds the named threshold `maxEstErrorUs`, `Run`
returns the Failure verdict with the magnitude message (reporting the
excess formatted as a Go duration), which is never the unsync message;
the unsync-flag branch is not taken. -/
theorem claim2_magnitude_failure {α β : Type} (t : TimeCheck) (ctx : α) (cfg : β)
    (herr : (t.runAdjtimex zeroTimex).2.2 = none)
    (hhi : (t.runAdjtimex zeroTimex).1.Esterror < 2 ^ 63)
    (hgt : maxEstErrorUs < (t.runAdjtimex zeroTimex).1.Esterror) :
    t.Run ctx cfg =
      (magnitudeMsg ((t.runAdjtimex zeroTimex).1.Esterror - maxEstErrorUs),
        Verdict.statusFailure, none) ∧
    magnitudeMsg ((t.runAdjtimex zeroTimex).1.Esterror - maxEstErrorUs) ≠ unsyncMsg := by
  have hval := maxEstErrorUs_val
  have heq : toInt64 ((t.runAdjtimex zeroTimex).1.Esterror - maxEstErrorUs) =
      (t.runAdjtimex zeroTimex).1.Esterror - maxEstErrorUs :=
    toInt64_eq_self (by omega) (by omega)
  refine ⟨?_, magnitudeMsg_ne_unsyncMsg _⟩
  rw [run_none t ctx cfg herr, heq, if_pos (by omega)]

/-- Concrete check for the C2 witness: acquisition succeeds with
`Esterror` one microsecond above the threshold. -/
def tC2 : TimeCheck :=
  { Name := "Check clock synchronization"
    runAdjtimex := fun tb => ({ tb with Esterror := 100000001 }, 0, none) }

/-- Claim C2 witness at `Esterror = 100000001`. -/
theorem claim2_witness :
    tC2.Run () () =
      (magnitudeMsg (100000001 - maxEstErrorUs), Verdict.statusFailure, none) ∧
    magnitudeMsg (100000001 - maxEstErrorUs) ≠ unsyncMsg :=
  claim2_magnitude_failure tC2 () () rfl (by decide) (by decide)

/-- Claim C5: if the injected acquisition function returns an error,
`Run` returns the empty message, the Unknown verdict, and an error whose
text chains the adjtimex label with the original cause text; the result
does not depend on anything else, in particular no snapshot check runs. -/
theorem claim5_unknown_on_error {α β : Type} (t : TimeCheck) (ctx : α) (cfg : β)
    (e : String) (herr : (t.runAdjtimex zeroTimex).2.2 = some e) :
    t.Run ctx cfg = ("", Verdict.statusUnknown, some (errorsWrap e adjtimexErrLabel)) ∧
    errorsWrap e adjtimexErrLabel = adjtimexErrLabel ++ ": " ++ e :=
  ⟨run_err t ctx cfg e herr, rfl⟩

/-- Concrete check for the C5 witness: acquisition fails with
"permission denied" while the buffer even reports a huge `Esterror`. -/
def tC5 : TimeCheck :=
  { Name := "Check clock synchronization"
    runAdjtimex := fun tb =>
      ({ tb with Esterror := 999999999999, Status := 64 }, -1, some "permission denied") }

/-- Claim C5 witness: the wrapped error is
"unable to make a system call adjtimex: permission denied". -/
theorem claim5_witness :
    tC5.Run () () =
      ("", Verdict.statusUnknown, some (errorsWrap "permission denied" adjtimexErrLabel)) ∧
    errorsWrap "permission denied" adjtimexErrLabel =
      adjtimexErrLabel ++ ": " ++ "permission denied" :=
  claim5_unknown_on_error tC5 () () "permission denied" rfl

/-- Concrete check for C9: acquisition succeeds with
`Esterror = 200000` and `Status = 0` (the spec's Scenario B). -/
def tC9 : TimeCheck :=
  { Name := "Check clock synchronization"
    runAdjtimex := fun tb => ({ tb with Esterror := 200000, Status := 0 }, 0, none) }

/-- Claim C9: the spec's Scenario B (`Esterror = 200000`, flags clear,
intended threshold 100,000 µs) is supposed to fail with a 100 ms excess,
but the code returns the OK verdict: because `maxEstErrorUs` is actually
100,000,000, the comparison `200000 - 100000000 > 0` is false and the
probe reports the clock as synced. -/
theorem claim9_scenarioB_returns_ok :
    tC9.Run () () = ("Clock is synced", Verdict.statusOK, none) := by
  decide

/-- Concrete check refuting C3 as stated: acquisition succeeds with
`Esterror = -2^63` (the minimum `int64`) and `Status = 0`. -/
def tC3cex : TimeCheck :=
  { Name := "Check clock synchronization"
    runAdjtimex := fun tb => ({ tb with Esterror := -(2 ^ 63) }, 0, none) }

/-- Claim C3 counterexample: at `Esterror = -2^63` the premises of the
claim hold — `Esterror ≤ maxEstErrorUs` and the unsync bit is clear —
yet `Run` does not return the OK triple: the `int64` subtraction
`Esterror - maxEstErrorUs` underflows and wraps to the positive value
`2^63 - maxEstErrorUs`, taking the magnitude-failure branch. -/
theorem claim3_counterexample :
    (tC3cex.runAdjtimex zeroTimex).1.Esterror ≤ maxEstErrorUs ∧
    int32land (tC3cex.runAdjtimex zeroTimex).1.Status staUnsync = 0 ∧
    tC3cex.Run () () ≠ ("Clock is synced", Verdict.statusOK, none) := by
  decide

/-- Claim C3 (amended): whenever acquisition succeeds, `Esterror` is at
most the threshold, the subtraction `Esterror - maxEstErrorUs` does not
underflow the signed 64-bit range, and the unsync bit (0x0040) is clear,
`Run` returns exactly `("Clock is synced", OK, nil)`. -/
theorem claim3_ok_when_within_and_clear {α β : Type} (t : TimeCheck) (ctx : α) (cfg : β)
    (herr : (t.runAdjtimex zeroTimex).2.2 = none)
    (hle : (t.runAdjtimex zeroTimex).1.Esterror ≤ maxEstErrorUs)
    (hlo : -(2 ^ 63) ≤ (t.runAdjtimex zeroTimex).1.Esterror - maxEstErrorUs)
    (hflag : int32land (t.runAdjtimex zeroTimex).1.Status staUnsync = 0) :
    t.Run ctx cfg = ("Clock is synced", Verdict.statusOK, none) := by
  have heq : toInt64 ((t.runAdjtimex zeroTimex).1.Esterror - maxEstErrorUs) =
      (t.runAdjtimex zeroTimex).1.Esterror - maxEstErrorUs :=
    toInt64_eq_self hlo (by omega)
  rw [run_none t ctx cfg herr, heq, if_neg (by omega), if_neg (by omega)]

/-- Concrete check for the C3 witness: `Esterror = 50`, `Status = 0`. -/
def tC3w : TimeCheck :=
  { Name := "Check clock synchronization"
    runAdjtimex := fun tb => ({ tb with Esterror := 50, Status := 0 }, 0, none) }

/-- Claim C3 witness at `Esterror = 50`, flags clear. -/
theorem claim3_witness :
    tC3w.Run () () = ("Clock is synced", Verdict.statusOK, none) :=
  claim3_ok_when_within_and_clear tC3w () () rfl (by decide) (by decide) (by decide)

/-- Concrete check refuting C4 as stated: `Esterror = -2^63` with the
unsync bit set. -/
def tC4cex : TimeCheck :=
  { Name := "Check clock synchronization"
    runAdjtimex := fun tb => ({ tb with Esterror := -(2 ^ 63), Status := 0x0040 }, 0, none) }

/-- Claim C4 counterexample: at `Esterror = -2^63` with the unsync bit
set, the claim's premises hold, yet the message is not the unsync
message: the wrapped subtraction takes the magnitude branch first. -/
theorem claim4_counterexample :
    (tC4cex.runAdjtimex zeroTimex).1.Esterror ≤ maxEstErrorUs ∧
    int32land (tC4cex.runAdjtimex zeroTimex).1.Status staUnsync > 0 ∧
    (tC4cex.Run () ()).1 ≠ unsyncMsg := by
  decide

/-- Claim C4 (amended): whenever acquisition succeeds, `Esterror` is at
most the threshold, the subtraction `Esterror - maxEstErrorUs` does not
underflow the signed 64-bit range, and the unsync bit (0x0040) is set,
`Run` returns the Failure verdict with the fixed unsync message. -/
theorem claim4_unsync_failure {α β : Type} (t : TimeCheck) (ctx : α) (cfg : β)
    (herr : (t.runAdjtimex zeroTimex).2.2 = none)
    (hle : (t.runAdjtimex zeroTimex).1.Esterror ≤ maxEstErrorUs)
    (hlo : -(2 ^ 63) ≤ (t.runAdjtimex zeroTimex).1.Esterror - maxEstErrorUs)
    (hflag : int32land (t.runAdjtimex zeroTimex).1.Status staUnsync > 0) :
    t.Run ctx cfg = (unsyncMsg, Verdict.statusFailure, none) := by
  have heq : toInt64 ((t.runAdjtimex zeroTimex).1.Esterror - maxEstErrorUs) =
      (t.runAdjtimex zeroTimex).1.Esterror - maxEstErrorUs :=
    toInt64_eq_self hlo (by omega)
  rw [run_none t ctx cfg herr, heq, if_neg (by omega), if_pos hflag]

/-- Concrete check for the C4 witness: `Esterror = 0`,
`Status = 0x0040` (the spec's Scenario C). -/
def tC4w : TimeCheck :=
  { Name := "Check clock synchronization"
    runAdjtimex := fun tb => ({ tb with Esterror := 0, Status := 0x0040 }, 0, none) }

/-- Claim C4 witness at `Esterror = 0`, unsync bit set. -/
theorem claim4_witness :
    tC4w.Run () () = (unsyncMsg, Verdict.statusFailure, none) :=
  claim4_unsync_failure tC4w () () rfl (by decide) (by decide) (by decide)

/-- Claim C6: `Run` returns a non-nil error exactly when the verdict is
Unknown, and whenever acquisition succeeds the returned error is nil —
both Failure outcomes and the OK outcome carry a nil error. -/
theorem claim6_error_iff_unknown {α β : Type} (t : TimeCheck) (ctx : α) (cfg : β) :
    ((t.Run ctx cfg).2.2 ≠ none ↔ (t.Run ctx cfg).2.1 = Verdict.statusUnknown) ∧
    ((t.runAdjtimex zeroTimex).2.2 = none → (t.Run ctx cfg).2.2 = none) := by
  rcases h : (t.runAdjtimex zeroTimex).2.2 with _ | e
  · rw [run_none t ctx cfg h]
    constructor
    · split_ifs <;> simp
    · intro _
      split_ifs <;> rfl
  · rw [run_err t ctx cfg e h]
    constructor
    · simp
    · intro hc
      cases hc

/-- Concrete check for the C6 witness: a clean, synced snapshot. -/
def tC6 : TimeCheck :=
  { Name := "Check clock synchronization"
    runAdjtimex := fun tb => (tb, 0, none) }

/-- Claim C6 witness on a concrete check. -/
theorem claim6_witness :
    ((tC6.Run () ()).2.2 ≠ none ↔ (tC6.Run () ()).2.1 = Verdict.statusUnknown) ∧
    ((tC6.runAdjtimex zeroTimex).2.2 = none → (tC6.Run () ()).2.2 = none) :=
  claim6_error_iff_unknown tC6 () ()

/-- Concrete check refuting C7 as stated: `Esterror` exactly at the
threshold, but with the unsync bit set. -/
def tC7cex : TimeCheck :=
  { Name := "Check clock synchronization"
    runAdjtimex := fun tb => ({ tb with Esterror := 100000000, Status := 0x0040 }, 0, none) }

/-- Claim C7 counterexample: with `Esterror = maxEstErrorUs` exactly and
the unsync bit set, the verdict is Failure (from the flag check), not
OK; equality only guarantees the magnitude failure does not trigger. -/
theorem claim7_counterexample :
    (tC7cex.runAdjtimex zeroTimex).1.Esterror = maxEstErrorUs ∧
    (tC7cex.Run () ()).2.1 ≠ Verdict.statusOK := by
  decide

/-- Claim C7 (amended): with acquisition succeeding and `Esterror` equal
to `maxEstErrorUs` exactly, the magnitude comparison (strict `>`) does
not trigger, and the outcome is decided by the unsync flag alone: OK
when the bit is clear, the unsync failure when it is set. -/
theorem claim7_boundary {α β : Type} (t : TimeCheck) (ctx : α) (cfg : β)
    (herr : (t.runAdjtimex zeroTimex).2.2 = none)
    (heq : (t.runAdjtimex zeroTimex).1.Esterror = maxEstErrorUs) :
    t.Run ctx cfg =
      (if int32land (t.runAdjtimex zeroTimex).1.Status staUnsync > 0 then
        (unsyncMsg, Verdict.statusFailure, none)
      else
        ("Clock is synced", Verdict.statusOK, none)) := by
  have h0 : toInt64 ((t.runAdjtimex zeroTimex).1.Esterror - maxEstErrorUs) = 0 := by
    rw [heq, sub_self]
    decide
  rw [run_none t ctx cfg herr, h0, if_neg (by omega)]

/-- Concrete check for the C7 witness: `Esterror` exactly at the
threshold, flags clear. -/
def tC7w : TimeCheck :=
  { Name := "Check clock synchronization"
    runAdjtimex := fun tb => ({ tb with Esterror := 100000000, Status := 0 }, 0, none) }

/-- Claim C7 witness: at the exact boundary with flags clear, the
result is the OK triple. -/
theorem claim7_witness :
    tC7w.Run () () =
      (if int32land (tC7w.runAdjtimex zeroTimex).1.Status staUnsync > 0 then
        (unsyncMsg, Verdict.statusFailure, none)
      else
        ("Clock is synced", Verdict.statusOK, none)) ∧
    tC7w.Run () () = ("Clock is synced", Verdict.statusOK, none) :=
  ⟨claim7_boundary tC7w () () rfl rfl, by decide⟩

/-- Concrete check refuting C8 as stated: the minimum `int64` value of
`Esterror`, flags clear. -/
def tC8cex : TimeCheck :=
  { Name := "Check clock synchronization"
    runAdjtimex := fun tb => ({ tb with Esterror := -(2 ^ 63), Status := 0 }, 0, none) }

/-- Claim C8 counterexample: `Esterror = -2^63` is negative and the
unsync bit is clear, yet the verdict is Failure: the wrapped difference
`toInt64(-2^63 - maxEstErrorUs) = 2^63 - maxEstErrorUs` is positive, so
the magnitude failure does trigger and the flag check is never reached. -/
theorem claim8_counterexample :
    (tC8cex.runAdjtimex zeroTimex).1.Esterror < 0 ∧
    int32land (tC8cex.runAdjtimex zeroTimex).1.Status staUnsync = 0 ∧
    0 < toInt64 ((tC8cex.runAdjtimex zeroTimex).1.Esterror - maxEstErrorUs) ∧
    (tC8cex.Run () ()).2.1 = Verdict.statusFailure := by
  decide

/-- Claim C8 (amended): for every snapshot with negative `Esterror`
whose difference `Esterror - maxEstErrorUs` does not underflow the
signed 64-bit range, the wrapped difference is non-positive, the
magnitude failure cannot trigger, and evaluation falls through to the
unsync-flag check. -/
theorem claim8_negative_falls_through {α β : Type} (t : TimeCheck) (ctx : α) (cfg : β)
    (herr : (t.runAdjtimex zeroTimex).2.2 = none)
    (hneg : (t.runAdjtimex zeroTimex).1.Esterror < 0)
    (hlo : -(2 ^ 63) ≤ (t.runAdjtimex zeroTimex).1.Esterror - maxEstErrorUs) :
    toInt64 ((t.runAdjtimex zeroTimex).1.Esterror - maxEstErrorUs) ≤ 0 ∧
    t.Run ctx cfg =
      (if int32land (t.runAdjtimex zeroTimex).1.Status staUnsync > 0 then
        (unsyncMsg, Verdict.statusFailure, none)
      else
        ("Clock is synced", Verdict.statusOK, none)) := by
  have hval := maxEstErrorUs_val
  have heq : toInt64 ((t.runAdjtimex zeroTimex).1.Esterror - maxEstErrorUs) =
      (t.runAdjtimex zeroTimex).1.Esterror - maxEstErrorUs :=
    toInt64_eq_self hlo (by omega)
  refine ⟨by omega, ?_⟩
  rw [run_none t ctx cfg herr, heq, if_neg (by omega)]

/-- Concrete check for the C8 witness: a small negative `Esterror` with
the unsync bit set. -/
def tC8w : TimeCheck :=
  { Name := "Check clock synchronization"
    runAdjtimex := fun tb => ({ tb with Esterror := -5, Status := 0x0040 }, 0, none) }

/-- Claim C8 witness at `Esterror = -5`: the difference is non-positive
and the unsync-flag check decides the outcome. -/
theorem claim8_witness :
    toInt64 ((tC8w.runAdjtimex zeroTimex).1.Esterror - maxEstErrorUs) ≤ 0 ∧
    tC8w.Run () () =
      (if int32land (tC8w.runAdjtimex zeroTimex).1.Status staUnsync > 0 then
        (unsyncMsg, Verdict.statusFailure, none)
      else
        ("Clock is synced", Verdict.statusOK, none)) :=
  claim8_negative_falls_through tC8w () () rfl (by decide) (by decide)

/-- Claim C10: the outcome of `Run` depends only on the acquisition
error and the filled buffer's `Esterror` and `Status` fields. Any two
invocations — with arbitrary and possibly differently-typed context and
configuration arguments, different check names, different `int` returns
from the acquisition function and arbitrary other `Timex` fields — that
agree on those three produce identical `(message, verdict, error)`
triples. -/
theorem claim10_noninterference {α α' β β' : Type} (t t' : TimeCheck)
    (ctx : α) (ctx' : α') (cfg : β) (cfg' : β')
    (he : (t.runAdjtimex zeroTimex).2.2 = (t'.runAdjtimex zeroTimex).2.2)
    (hE : (t.runAdjtimex zeroTimex).1.Esterror = (t'.runAdjtimex zeroTimex).1.Esterror)
    (hS : (t.runAdjtimex zeroTimex).1.Status = (t'.runAdjtimex zeroTimex).1.Status) :
    t.Run ctx cfg = t'.Run ctx' cfg' := by
  rcases h : (t.runAdjtimex zeroTimex).2.2 with _ | e
  · have h' : (t'.runAdjtimex zeroTimex).2.2 = none := by
      rw [← he, h]
    rw [run_none t ctx cfg h, run_none t' ctx' cfg' h', hE, hS]
  · have h' : (t'.runAdjtimex zeroTimex).2.2 = some e := by
      rw [← he, h]
    rw [run_err t ctx cfg e h, run_err t' ctx' cfg' e h']

/-- First concrete check for the C10 witness: name "a", irrelevant
fields `Offset`/`Maxerror` populated, `int` return 0. -/
def tC10a : TimeCheck :=
  { Name := "a"
    runAdjtimex := fun tb =>
      ({ tb with Esterror := 7, Status := 1, Offset := 55, Maxerror := 123 }, 0, none) }

/-- Second concrete check for the C10 witness: name "b", different
irrelevant fields `Freq`/`Tai`/`Jitter`, `int` return 42. -/
def tC10b : TimeCheck :=
  { Name := "b"
    runAdjtimex := fun tb =>
      ({ tb with Esterror := 7, Status := 1, Freq := 99, Tai := 3, Jitter := 8 }, 42, none) }

/-- Claim C10 witness: the two checks agree on error, `Esterror` and
`Status` but differ in name, context type and value, configuration type
and value, `int` return and the other `Timex` fields; the results are
equal. -/
theorem claim10_witness :
    tC10a.Run (3 : Nat) (true) = tC10b.Run ("other context") ((0, 1) : Nat × Nat) :=
  claim10_noninterference tC10a tC10b 3 ("other context") (true) ((0, 1)) rfl rfl rfl

end DcosChecks
